import Mathlib

/-!
# Verification of the GeoLib spherical-geodesy library (src/geo.py)

The library is a single stateless class `Geo` of eleven closed-form
spherical-trigonometry operations over latitude/longitude pairs in degrees.
This file gives a shallow embedding of `geo.py` over an arbitrary linear
ordered field `α` (exact real semantics of the arithmetic; floating-point
rounding, infinities and NaN payloads are outside the model, which is why
`misinf`/`misnan` below are constantly `false`: a field element is never
infinite or NaN).

The Python `math` module is the library's only dependency; it is embedded as
a structure `MathLib α` of abstract transcendental functions.  The partial
`math` functions (`log`, `asin`, `acos`, `sqrt`) and Python's division, which
raise `ValueError` / `ZeroDivisionError` on bad inputs, are modelled as
`Option`-valued operations; every `Geo` method wraps its try-block in
`runGeo`, which models the source's `except Exception: return 1` handler.

`MathLib.Sane` collects the handful of standard identities of the real
functions that the proofs use; `realLib` instantiates the structure with
Mathlib's genuine `Real.sin`, `Real.arcsin`, `Complex.arg`, ... and is proved
`Sane`, and `toyQ` is a small computable rational instance (also `Sane`) used
to evaluate the embedding on concrete inputs.
-/

namespace GeoSpec

/-- Abstract interface of the Python `math` module: the transcendental
primitives `geo.py` uses, over an arbitrary linear ordered field. -/
structure MathLib (α : Type) where
  pi : α
  sin : α → α
  cos : α → α
  tan : α → α
  asin : α → α
  acos : α → α
  atan2 : α → α → α
  log : α → α
  sqrt : α → α

variable {α : Type} [LinearOrderedField α] [FloorRing α]

/-- Result value of a `Geo` method: Python returns either a bare number
(distances, bearings, the sentinels 0 and 1) or a two-element
`[lat, lon]` list. -/
inductive GeoRet (α : Type) where
  | num : α → GeoRet α
  | pair : α → α → GeoRet α
deriving DecidableEq

/-- True iff the result is a two-element `[lat, lon]` list. -/
def GeoRet.isPair : GeoRet α → Bool
  | .num _ => false
  | .pair _ _ => true

/-- The two exception classes of `geo.py`: `LatitudeRangeException` and
`LongitudeRangeException`. -/
inductive GeoErr where
  | latitudeRange : GeoErr
  | longitudeRange : GeoErr
deriving DecidableEq

/-- True iff the call returned normally (did not raise a range exception). -/
def resOk : Except GeoErr (GeoRet α) → Bool
  | .ok _ => true
  | .error _ => false

/-- Python `math.radians`: degrees to radians, `x * (pi / 180)`. -/
def radians (M : MathLib α) (x : α) : α := x * M.pi / 180

/-- Python `math.degrees`: radians to degrees, `x * (180 / pi)`. -/
def degrees (M : MathLib α) (x : α) : α := x * 180 / M.pi

/-- Python `%` on numbers (divisor nonzero): `x - y * floor (x / y)`, the
remainder with the sign of the divisor.  `geo.py` only applies `%` to the
positive divisors `360` and `2 * pi`. -/
def fmod (x y : α) : α := x - y * ((Int.floor (x / y) : ℤ) : α)

/-- Python `math.sqrt`: raises `ValueError` on a negative argument. -/
def msqrt (M : MathLib α) (x : α) : Option α :=
  if x < 0 then none else some (M.sqrt x)

/-- Python `math.log`: raises `ValueError` on a non-positive argument. -/
def mlog (M : MathLib α) (x : α) : Option α :=
  if x ≤ 0 then none else some (M.log x)

/-- Python `math.asin`: raises `ValueError` outside `[-1, 1]`. -/
def masin (M : MathLib α) (x : α) : Option α :=
  if x < -1 ∨ 1 < x then none else some (M.asin x)

/-- Python `math.acos`: raises `ValueError` outside `[-1, 1]`. -/
def macos (M : MathLib α) (x : α) : Option α :=
  if x < -1 ∨ 1 < x then none else some (M.acos x)

/-- Python `/`: raises `ZeroDivisionError` on a zero divisor (for floats
too, unlike C; this is why the `isinf`/`isnan` guards in `geo.py` are
unreachable at the degeneracies they were meant to catch). -/
def mdiv (a b : α) : Option α :=
  if b = 0 then none else some (a / b)

/-- Python `math.isinf` under exact field semantics: a field element is
never infinite, so this is constantly `false`.  (In CPython the only way
`geo.py` could produce an infinity is float overflow, outside this model;
at the actual east-west degeneracy the preceding division raises first.) -/
def misinf (_ : α) : Bool := false

/-- Python `math.isnan` under exact field semantics: constantly `false`.
(CPython `math.acos` raises on a domain error instead of returning NaN, so
the guarded branch is unreachable in the source as well.) -/
def misnan (_ : α) : Bool := false

/-- Python `round(x, 2)` under exact semantics: round `100 * x` to the
nearest integer, ties to the even integer (banker's rounding), divide
by 100. -/
def round2 (x : α) : α :=
  let f : ℤ := Int.floor (100 * x)
  let r : α := 100 * x - (f : α)
  let n : ℤ := if r < 1/2 then f else if 1/2 < r then f + 1 else if Even f then f else f + 1
  (n : α) / 100

/-- The `except Exception: return 1` handler shared by every method of
`Geo`: a `none` from the try-block computation becomes the bare number 1. -/
def runGeo (c : Option (GeoRet α)) : GeoRet α := c.getD (.num 1)

/-- Latitude validation shared by all methods, two-point form
(`geo.py` tests `lat > 90 or lat < -90` for each point). -/
def badLat2 (lat1 lat2 : α) : Prop :=
  (lat1 > 90 ∨ lat1 < -90) ∨ (lat2 > 90 ∨ lat2 < -90)

/-- Longitude validation shared by all methods, two-point form. -/
def badLon2 (lon1 lon2 : α) : Prop :=
  (lon1 > 180 ∨ lon1 < -180) ∨ (lon2 > 180 ∨ lon2 < -180)

/-- Latitude validation, one-point form. -/
def badLat1 (lat1 : α) : Prop := lat1 > 90 ∨ lat1 < -90

/-- Longitude validation, one-point form. -/
def badLon1 (lon1 : α) : Prop := lon1 > 180 ∨ lon1 < -180

instance (lat1 lat2 : α) : Decidable (badLat2 lat1 lat2) := by
  unfold badLat2; infer_instance

instance (lon1 lon2 : α) : Decidable (badLon2 lon1 lon2) := by
  unfold badLon2; infer_instance

instance (lat1 : α) : Decidable (badLat1 lat1) := by
  unfold badLat1; infer_instance

instance (lon1 : α) : Decidable (badLon1 lon1) := by
  unfold badLon1; infer_instance

/-- Try-block of `Geo.distance_haversine` (geo.py lines 46-58).  The
`return (R * c)` after the try-block is total arithmetic and is folded into
the success path. -/
def distance_haversine_core (M : MathLib α) (lat1 lon1 lat2 lon2 : α) :
    Option (GeoRet α) := do
  let Lat := radians M (lat2 - lat1)
  let Lon := radians M (lon2 - lon1)
  let a := M.sin (Lat/2) * M.sin (Lat/2) +
    M.cos (radians M lat1) * M.cos (radians M lat2) *
    M.sin (Lon/2) * M.sin (Lon/2)
  let s1 ← msqrt M a
  let s2 ← msqrt M (1 - a)
  let c := 2 * M.atan2 s1 s2
  pure (.num (6371 * c))

/-- `Geo.distance_haversine` (geo.py lines 34-58): validate both points,
then the haversine formula; any internal exception yields 1. -/
def distance_haversine (M : MathLib α) (lat1 lon1 lat2 lon2 : α) :
    Except GeoErr (GeoRet α) :=
  if badLat2 lat1 lat2 then .error .latitudeRange
  else if badLon2 lon1 lon2 then .error .longitudeRange
  else .ok (runGeo (distance_haversine_core M lat1 lon1 lat2 lon2))

/-- Try-block of `Geo.distance_sloc` (geo.py lines 72-80): spherical law of
cosines. -/
def distance_sloc_core (M : MathLib α) (lat1 lon1 lat2 lon2 : α) :
    Option (GeoRet α) := do
  let c ← macos M (M.sin (radians M lat1) * M.sin (radians M lat2) +
    M.cos (radians M lat1) * M.cos (radians M lat2) *
    M.cos (radians M (lon2 - lon1)))
  pure (.num (6371 * c))

/-- `Geo.distance_sloc` (geo.py lines 60-80). -/
def distance_sloc (M : MathLib α) (lat1 lon1 lat2 lon2 : α) :
    Except GeoErr (GeoRet α) :=
  if badLat2 lat1 lat2 then .error .latitudeRange
  else if badLon2 lon1 lon2 then .error .longitudeRange
  else .ok (runGeo (distance_sloc_core M lat1 lon1 lat2 lon2))

/-- The shared `atan2` bearing formula of `Geo.initial_bearing` and
`Geo.final_bearing` (geo.py lines 93-102 and 121-130, identical text). -/
def bearing_raw (M : MathLib α) (lat1 lon1 lat2 lon2 : α) : α :=
  let lat1r := radians M lat1
  let lat2r := radians M lat2
  let dLon := radians M lon2 - radians M lon1
  let y := M.sin dLon * M.cos lat2r
  let x := M.cos lat1r * M.sin lat2r - M.sin lat1r * M.cos lat2r * M.cos dLon
  M.atan2 y x

/-- Try-block of `Geo.initial_bearing`: total operations only; the
`(degrees + 360) % 360` normalization after the try-block is folded into
the success path. -/
def initial_bearing_core (M : MathLib α) (lat1 lon1 lat2 lon2 : α) :
    Option (GeoRet α) :=
  some (.num (fmod (degrees M (bearing_raw M lat1 lon1 lat2 lon2) + 360) 360))

/-- `Geo.initial_bearing` (geo.py lines 82-108). -/
def initial_bearing (M : MathLib α) (lat1 lon1 lat2 lon2 : α) :
    Except GeoErr (GeoRet α) :=
  if badLat2 lat1 lat2 then .error .latitudeRange
  else if badLon2 lon1 lon2 then .error .longitudeRange
  else .ok (runGeo (initial_bearing_core M lat1 lon1 lat2 lon2))

/-- Try-block of `Geo.final_bearing`: same atan2 formula, normalized with
`+ 180` instead of `+ 360`. -/
def final_bearing_core (M : MathLib α) (lat1 lon1 lat2 lon2 : α) :
    Option (GeoRet α) :=
  some (.num (fmod (degrees M (bearing_raw M lat1 lon1 lat2 lon2) + 180) 360))

/-- `Geo.final_bearing` (geo.py lines 110-136). -/
def final_bearing (M : MathLib α) (lat1 lon1 lat2 lon2 : α) :
    Except GeoErr (GeoRet α) :=
  if badLat2 lat1 lat2 then .error .latitudeRange
  else if badLon2 lon1 lon2 then .error .longitudeRange
  else .ok (runGeo (final_bearing_core M lat1 lon1 lat2 lon2))

/-- Try-block of `Geo.midpoint` (geo.py lines 149-166), including the
rounded degree conversion of the final return (total arithmetic). -/
def midpoint_core (M : MathLib α) (lat1 lon1 lat2 lon2 : α) :
    Option (GeoRet α) := do
  let lat1r := radians M lat1
  let lon1r := radians M lon1
  let lat2r := radians M lat2
  let lon2r := radians M lon2
  let bx := M.cos lat2r * M.cos (lon2r - lon1r)
  let bY := M.cos lat2r * M.sin (lon2r - lon1r)
  let s ← msqrt M ((M.cos lat1r + bx) * (M.cos lat1r + bx) + bY * bY)
  let mLat := M.atan2 (M.sin lat1r + M.sin lat2r) s
  let mLon := lon1r + M.atan2 bY (M.cos lat1r + bx)
  pure (.pair (round2 (degrees M mLat)) (round2 (degrees M mLon)))

/-- `Geo.midpoint` (geo.py lines 138-166). -/
def midpoint (M : MathLib α) (lat1 lon1 lat2 lon2 : α) :
    Except GeoErr (GeoRet α) :=
  if badLat2 lat1 lat2 then .error .latitudeRange
  else if badLon2 lon1 lon2 then .error .longitudeRange
  else .ok (runGeo (midpoint_core M lat1 lon1 lat2 lon2))

/-- Angular separation `d` of `Geo.intersection` (geo.py lines 192-194):
`2 * asin(sqrt(sin^2(dLat/2) + cos lat1 cos lat2 sin^2(dLon/2)))`.  Factored
out of the try-block so the degenerate-case characterization can name it. -/
def inter_d (M : MathLib α) (lat1 lon1 lat2 lon2 : α) : Option α := do
  let lat1r := radians M lat1
  let lat2r := radians M lat2
  let dLat := lat2r - lat1r
  let dLon := radians M lon2 - radians M lon1
  let s ← msqrt M (M.sin (dLat/2) * M.sin (dLat/2) +
    M.cos lat1r * M.cos lat2r * M.sin (dLon/2) * M.sin (dLon/2))
  let t ← masin M s
  pure (2 * t)

/-- Course angle `f1` of `Geo.intersection` (geo.py lines 199-203),
including the `isnan` coercion to 0 (unreachable under exact semantics,
and in CPython, where `acos` raises instead of returning NaN). -/
def inter_f1 (M : MathLib α) (lat1 lat2 d : α) : Option α := do
  let t ← mdiv (M.sin (radians M lat2) - M.sin (radians M lat1) * M.cos d)
    (M.sin d * M.cos (radians M lat1))
  let f1 ← macos M t
  pure (if misnan f1 then 0 else f1)

/-- Course angle `f2` of `Geo.intersection` (geo.py line 205). -/
def inter_f2 (M : MathLib α) (lat1 lat2 d : α) : Option α := do
  let t ← mdiv (M.sin (radians M lat1) - M.sin (radians M lat2) * M.cos d)
    (M.sin d * M.cos (radians M lat2))
  macos M t

/-- Relative bearings `(a1, a2)` of `Geo.intersection` (geo.py lines
205-215): courses `b1`/`b2` chosen by the sign of `sin(lon2 - lon1)`, then
wrapped into `(-pi, pi]`-style windows with `% (2 pi)`. -/
def inter_a12 (M : MathLib α) (lat1 lon1 brng1 lat2 lon2 brng2 d : α) :
    Option (α × α) := do
  let f1 ← inter_f1 M lat1 lat2 d
  let f2 ← inter_f2 M lat1 lat2 d
  let b1 := if M.sin (radians M lon2 - radians M lon1) > 0 then f1 else 2 * M.pi - f1
  let b2 := if M.sin (radians M lon2 - radians M lon1) > 0 then 2 * M.pi - f2 else f2
  pure (fmod (radians M brng1 - b1 + M.pi) (2 * M.pi) - M.pi,
    fmod (b2 - radians M brng2 + M.pi) (2 * M.pi) - M.pi)

/-- Try-block of `Geo.intersection` (geo.py lines 180-244): the three
degenerate checks return the bare sentinel 0; otherwise the crossing point
is computed and converted to degrees (the conversion at the final return is
total arithmetic and is folded into the success path). -/
def intersection_core (M : MathLib α) (lat1 lon1 brng1 lat2 lon2 brng2 : α) :
    Option (GeoRet α) := do
  let d ← inter_d M lat1 lon1 lat2 lon2
  if d = 0 then pure (.num 0) else do
  let a ← inter_a12 M lat1 lon1 brng1 lat2 lon2 brng2 d
  if M.sin a.1 = 0 ∧ M.sin a.2 = 0 then pure (.num 0) else
  if M.sin a.1 * M.sin a.2 < 0 then pure (.num 0) else do
  let a3 ← macos M (-M.cos a.1 * M.cos a.2 + M.sin a.1 * M.sin a.2 * M.cos d)
  let dx := M.atan2 (M.sin d * M.sin a.1 * M.sin a.2)
    (M.cos a.2 + M.cos a.1 * M.cos a3)
  let lat3 ← masin M (M.sin (radians M lat1) * M.cos dx +
    M.cos (radians M lat1) * M.sin dx * M.cos (radians M brng1))
  let dLon13 := M.atan2 (M.sin (radians M brng1) * M.sin dx * M.cos (radians M lat1))
    (M.cos dx - M.sin (radians M lat1) * M.sin lat3)
  let lon3 := fmod (radians M lon1 + dLon13 + M.pi) (2 * M.pi) - M.pi
  pure (.pair (degrees M lat3) (degrees M lon3))

/-- `Geo.intersection` (geo.py lines 168-244). -/
def intersection (M : MathLib α) (lat1 lon1 brng1 lat2 lon2 brng2 : α) :
    Except GeoErr (GeoRet α) :=
  if badLat2 lat1 lat2 then .error .latitudeRange
  else if badLon2 lon1 lon2 then .error .longitudeRange
  else .ok (runGeo (intersection_core M lat1 lon1 brng1 lat2 lon2 brng2))

/-- Try-block of `Geo.rhumb_distance` (geo.py lines 259-287).  Note the
source computes `dLat/dPhi` inside `math.isinf(...)`: when `dPhi = 0` that
division raises before `isinf` can see an infinity, so the
`q = cos(lat1)` substitution is unreachable at the east-west degeneracy. -/
def rhumb_distance_core (M : MathLib α) (lat1 lon1 lat2 lon2 : α) :
    Option (GeoRet α) := do
  let lat1r := radians M lat1
  let lat2r := radians M lat2
  let dLat := lat2r - lat1r
  let dLon0 := |radians M lon2 - radians M lon1|
  let t ← mdiv (M.tan (lat2r/2 + M.pi/4)) (M.tan (lat1r/2 + M.pi/4))
  let dPhi ← mlog M t
  let r ← mdiv dLat dPhi
  let q := if misinf r then M.cos lat1r else r
  let dLon := if |dLon0| > M.pi then
    (if dLon0 > 0 then -(2 * M.pi - dLon0) else 2 * M.pi + dLon0) else dLon0
  let s ← msqrt M (dLat^2 + q^2 * dLon^2)
  pure (.num (s * 6371))

/-- `Geo.rhumb_distance` (geo.py lines 246-287). -/
def rhumb_distance (M : MathLib α) (lat1 lon1 lat2 lon2 : α) :
    Except GeoErr (GeoRet α) :=
  if badLat2 lat1 lat2 then .error .latitudeRange
  else if badLon2 lon1 lon2 then .error .longitudeRange
  else .ok (runGeo (rhumb_distance_core M lat1 lon1 lat2 lon2))

/-- Try-block of `Geo.rhumb_bearing` (geo.py lines 299-320), with the
post-try `(degrees + 360) % 360` normalization folded into the success
path. -/
def rhumb_bearing_core (M : MathLib α) (lat1 lon1 lat2 lon2 : α) :
    Option (GeoRet α) := do
  let lat1r := radians M lat1
  let lat2r := radians M lat2
  let dLon0 := radians M lon2 - radians M lon1
  let t ← mdiv (M.tan (lat2r/2 + M.pi/4)) (M.tan (lat1r/2 + M.pi/4))
  let dPhi ← mlog M t
  let dLon := if |dLon0| > M.pi then
    (if dLon0 > 0 then -(2 * M.pi - dLon0) else 2 * M.pi + dLon0) else dLon0
  let brng := M.atan2 dLon dPhi
  pure (.num (fmod (degrees M brng + 360) 360))

/-- `Geo.rhumb_bearing` (geo.py lines 289-320). -/
def rhumb_bearing (M : MathLib α) (lat1 lon1 lat2 lon2 : α) :
    Except GeoErr (GeoRet α) :=
  if badLat2 lat1 lat2 then .error .latitudeRange
  else if badLon2 lon1 lon2 then .error .longitudeRange
  else .ok (runGeo (rhumb_bearing_core M lat1 lon1 lat2 lon2))

/-- Try-block of `Geo.rhumb_destination_point` (geo.py lines 336-365),
with the degree conversion of the final return folded in. -/
def rhumb_destination_point_core (M : MathLib α) (lat1 lon1 brng dist : α) :
    Option (GeoRet α) := do
  let d := dist / 6371
  let lat1r := radians M lat1
  let lon1r := radians M lon1
  let brngr := radians M brng
  let lat2 := lat1r + d * M.cos brngr
  let dLat := lat2 - lat1r
  let t ← mdiv (M.tan (lat2/2 + M.pi/4)) (M.tan (lat1r/2 + M.pi/4))
  let dPhi ← mlog M t
  let r ← mdiv dLat dPhi
  let q := if misinf r then M.cos lat1r else r
  let dLon ← mdiv (d * M.sin brngr) q
  let lat2p := if |lat2| > M.pi/2 then
    (if lat2 > 0 then M.pi - lat2 else -M.pi - lat2) else lat2
  let lon2 := fmod (lon1r + dLon + 3 * M.pi) (2 * M.pi) - M.pi
  pure (.pair (degrees M lat2p) (degrees M lon2))

/-- `Geo.rhumb_destination_point` (geo.py lines 322-365): validates its
single input point. -/
def rhumb_destination_point (M : MathLib α) (lat1 lon1 brng dist : α) :
    Except GeoErr (GeoRet α) :=
  if badLat1 lat1 then .error .latitudeRange
  else if badLon1 lon1 then .error .longitudeRange
  else .ok (runGeo (rhumb_destination_point_core M lat1 lon1 brng dist))

/-- Try-block of `Geo.rhumb_midpoint` (geo.py lines 379-402), with the
degree conversion of the final return folded in.  The numerator logs are
evaluated in source order before the `log(f2/f1)` denominator; the `isnan`
fallback to the arithmetic-mean longitude is unreachable because on a
parallel rhumb line `log(f2/f1) = 0` and the division raises first. -/
def rhumb_midpoint_core (M : MathLib α) (lat1 lon1 lat2 lon2 : α) :
    Option (GeoRet α) := do
  let lat1r := radians M lat1
  let lat2r := radians M lat2
  let lon1r := radians M lon1
  let lon2r := radians M lon2
  let lat3 := (lat2r + lat1r) / 2
  let f1 := M.tan (M.pi/4 + lat1r/2)
  let f2 := M.tan (M.pi/4 + lat2r/2)
  let f3 := M.tan (M.pi/4 + lat3/2)
  let l3 ← mlog M f3
  let l2 ← mlog M f2
  let l1 ← mlog M f1
  let t ← mdiv f2 f1
  let lt ← mlog M t
  let lon3 ← mdiv ((lon2r - lon1r) * l3 + lon1r * l2 - lon2r * l1) lt
  let lon3a := if misnan lon3 then (lon1r + lon2r) / 2 else lon3
  let lon3b := fmod (lon3a + 3 * M.pi) (2 * M.pi) - M.pi
  pure (.pair (degrees M lat3) (degrees M lon3b))

/-- `Geo.rhumb_midpoint` (geo.py lines 367-402).  Note the source validates
only `lat1`/`lon1` (lines 374-377) although it takes two points. -/
def rhumb_midpoint (M : MathLib α) (lat1 lon1 lat2 lon2 : α) :
    Except GeoErr (GeoRet α) :=
  if badLat1 lat1 then .error .latitudeRange
  else if badLon1 lon1 then .error .longitudeRange
  else .ok (runGeo (rhumb_midpoint_core M lat1 lon1 lat2 lon2))

/-- Try-block of `Geo.destination_point` (geo.py lines 417-434), with the
degree conversion of the final return folded in. -/
def destination_point_core (M : MathLib α) (lat1 lon1 brng dist : α) :
    Option (GeoRet α) := do
  let d := dist / 6371
  let lat1r := radians M lat1
  let lon1r := radians M lon1
  let brngr := radians M brng
  let lat2 ← masin M (M.sin lat1r * M.cos d + M.cos lat1r * M.sin d * M.cos brngr)
  let lon2 := lon1r + M.atan2 (M.sin brngr * M.sin d * M.cos lat1r)
    (M.cos d - M.sin lat1r * M.sin lat2)
  let lon2n := fmod (lon2 + 3 * M.pi) (2 * M.pi) - M.pi
  pure (.pair (degrees M lat2) (degrees M lon2n))

/-- `Geo.destination_point` (geo.py lines 404-434): validates its single
input point. -/
def destination_point (M : MathLib α) (lat1 lon1 brng dist : α) :
    Except GeoErr (GeoRet α) :=
  if badLat1 lat1 then .error .latitudeRange
  else if badLon1 lon1 then .error .longitudeRange
  else .ok (runGeo (destination_point_core M lat1 lon1 brng dist))

/-- Standard identities of the real `math` functions that the proofs below
rely on.  Every law holds for CPython's `math` module (exact real reading)
and is proved below both for the genuine real instance `realLib` and for the
small rational test instance `toyQ`. -/
structure MathLib.Sane (M : MathLib α) : Prop where
  pi_pos : 0 < M.pi
  sin_zero : M.sin 0 = 0
  cos_zero : M.cos 0 = 1
  sin_neg : ∀ x, M.sin (-x) = -M.sin x
  sqrt_zero : M.sqrt 0 = 0
  sqrt_one : M.sqrt 1 = 1
  asin_zero : M.asin 0 = 0
  asin_one : M.asin 1 = M.pi / 2
  atan2_zero_one : M.atan2 0 1 = 0
  log_one : M.log 1 = 0
  sin_pi : M.sin M.pi = 0
  sin_pi_div_two : M.sin (M.pi / 2) = 1

/-- A computable rational `MathLib` used to evaluate the embedding on
concrete inputs: `pi` is the stand-in 3, and the transcendental functions
are piecewise tables satisfying exactly the `Sane` identities. -/
def toyQ : MathLib ℚ where
  pi := 3
  sin := fun x => (if x = 3/2 then 1 else 0) - (if x = -(3/2) then 1 else 0)
  cos := fun x => if x = 0 then 1 else 0
  tan := fun _ => 0
  asin := fun x => if x = 1 then 3/2 else 0
  acos := fun _ => 0
  atan2 := fun _ _ => 0
  log := fun _ => 0
  sqrt := fun x => x

theorem toyQ_sane : toyQ.Sane := by
  refine ⟨by norm_num [toyQ], by norm_num [toyQ], by norm_num [toyQ], ?_,
    rfl, rfl, by norm_num [toyQ], by norm_num [toyQ], rfl, rfl,
    by norm_num [toyQ], by norm_num [toyQ]⟩
  intro x
  simp only [toyQ]
  by_cases h1 : x = 3/2
  · subst h1; norm_num
  · by_cases h2 : x = -(3/2)
    · subst h2; norm_num
    · rw [if_neg h1, if_neg h2,
        if_neg (show ¬(-x = 3/2) from fun h => h2 (by linarith)),
        if_neg (show ¬(-x = -(3/2)) from fun h => h1 (by linarith))]
      ring

/-- The genuine real-number `math` module: Mathlib's transcendental
functions, with `atan2 y x` as the argument of the complex number
`x + y i` (range `(-pi, pi]`, `atan2 0 0 = 0`, as in CPython). -/
noncomputable def realLib : MathLib ℝ where
  pi := Real.pi
  sin := Real.sin
  cos := Real.cos
  tan := Real.tan
  asin := Real.arcsin
  acos := Real.arccos
  atan2 := fun y x => Complex.arg (x + y * Complex.I)
  log := Real.log
  sqrt := Real.sqrt

theorem realLib_sane : realLib.Sane := by
  refine ⟨Real.pi_pos, Real.sin_zero, Real.cos_zero, Real.sin_neg,
    Real.sqrt_zero, Real.sqrt_one, Real.arcsin_zero, Real.arcsin_one,
    ?_, Real.log_one, Real.sin_pi, Real.sin_pi_div_two⟩
  show Complex.arg ((1 : ℝ) + (0 : ℝ) * Complex.I) = 0
  norm_num [Complex.arg_one]

theorem fmod_nonneg (x : α) {y : α} (hy : 0 < y) : 0 ≤ fmod x y := by
  have h := Int.floor_le (x / y)
  have h2 : y * ((Int.floor (x / y) : ℤ) : α) ≤ y * (x / y) :=
    mul_le_mul_of_nonneg_left h (le_of_lt hy)
  have h3 : y * (x / y) = x := by field_simp
  unfold fmod
  linarith

theorem fmod_lt (x : α) {y : α} (hy : 0 < y) : fmod x y < y := by
  have h := Int.lt_floor_add_one (x / y)
  have h2 : y * (x / y) < y * ((Int.floor (x / y) : ℤ) : α) + y := by
    have := mul_lt_mul_of_pos_left h hy
    linarith [mul_add y ((Int.floor (x / y) : ℤ) : α) 1]
  have h3 : y * (x / y) = x := by field_simp
  unfold fmod
  linarith

theorem not_badLat2 {lat1 lat2 : α} (h1 : -90 ≤ lat1) (h2 : lat1 ≤ 90)
    (h3 : -90 ≤ lat2) (h4 : lat2 ≤ 90) : ¬ badLat2 lat1 lat2 := by
  unfold badLat2
  push_neg
  exact ⟨⟨h2, h1⟩, h4, h3⟩

theorem not_badLon2 {lon1 lon2 : α} (h1 : -180 ≤ lon1) (h2 : lon1 ≤ 180)
    (h3 : -180 ≤ lon2) (h4 : lon2 ≤ 180) : ¬ badLon2 lon1 lon2 := by
  unfold badLon2
  push_neg
  exact ⟨⟨h2, h1⟩, h4, h3⟩

theorem not_badLat1 {lat1 : α} (h1 : -90 ≤ lat1) (h2 : lat1 ≤ 90) :
    ¬ badLat1 lat1 := by
  unfold badLat1
  push_neg
  exact ⟨h2, h1⟩

theorem not_badLon1 {lon1 : α} (h1 : -180 ≤ lon1) (h2 : lon1 ≤ 180) :
    ¬ badLon1 lon1 := by
  unfold badLon1
  push_neg
  exact ⟨h2, h1⟩

/-- C1: the claim says all nine two-point operations raise
`LatitudeRangeError` / `LongitudeRangeError` when ANY supplied coordinate
is out of range, all points checked before any computation.  The code slips
in `Geo.rhumb_midpoint` (geo.py lines 374-377): it validates only the first
point, so `rhumb_midpoint(0, 0, 91, 0)` (second latitude 91) and
`rhumb_midpoint(0, 0, 0, 181)` (second longitude 181) return normally, for
every math library, instead of raising. -/
theorem c1_rhumb_midpoint_skips_second_point (M : MathLib α) :
    resOk (rhumb_midpoint M 0 0 91 0) = true ∧
    resOk (rhumb_midpoint M 0 0 0 181) = true := by
  constructor <;>
    · unfold rhumb_midpoint
      rw [if_neg (not_badLat1 (by norm_num) (by norm_num)),
        if_neg (not_badLon1 (by norm_num) (by norm_num))]
      rfl

/-- C1 witness: the missing validation evaluated over the rational test
instance. -/
theorem c1_witness :
    resOk (rhumb_midpoint toyQ 0 0 91 0) = true ∧
    resOk (rhumb_midpoint toyQ 0 0 0 181) = true :=
  c1_rhumb_midpoint_skips_second_point toyQ

/-- C2: on coordinates inside the valid ranges no operation raises a range
error, and every operation returns a bare number or a `[lat, lon]` pair:
internal degeneracies are swallowed by the `except` handler, never
surfacing as an unrelated exception (and a field element is never NaN). -/
theorem c2_every_operation_returns (M : MathLib α)
    (lat1 lon1 lat2 lon2 brng1 brng2 brng dist : α)
    (h1 : -90 ≤ lat1) (h2 : lat1 ≤ 90) (h3 : -90 ≤ lat2) (h4 : lat2 ≤ 90)
    (h5 : -180 ≤ lon1) (h6 : lon1 ≤ 180) (h7 : -180 ≤ lon2) (h8 : lon2 ≤ 180) :
    resOk (distance_haversine M lat1 lon1 lat2 lon2) = true ∧
    resOk (distance_sloc M lat1 lon1 lat2 lon2) = true ∧
    resOk (initial_bearing M lat1 lon1 lat2 lon2) = true ∧
    resOk (final_bearing M lat1 lon1 lat2 lon2) = true ∧
    resOk (midpoint M lat1 lon1 lat2 lon2) = true ∧
    resOk (intersection M lat1 lon1 brng1 lat2 lon2 brng2) = true ∧
    resOk (rhumb_distance M lat1 lon1 lat2 lon2) = true ∧
    resOk (rhumb_bearing M lat1 lon1 lat2 lon2) = true ∧
    resOk (rhumb_destination_point M lat1 lon1 brng dist) = true ∧
    resOk (rhumb_midpoint M lat1 lon1 lat2 lon2) = true ∧
    resOk (destination_point M lat1 lon1 brng dist) = true := by
  have hlat := not_badLat2 h1 h2 h3 h4
  have hlon := not_badLon2 h5 h6 h7 h8
  have hlat1 := not_badLat1 h1 h2
  have hlon1 := not_badLon1 h5 h6
  refine ⟨?_, ?_, ?_, ?_, ?_, ?_, ?_, ?_, ?_, ?_, ?_⟩ <;>
    · first
      | (unfold distance_haversine; rw [if_neg hlat, if_neg hlon]; rfl)
      | (unfold distance_sloc; rw [if_neg hlat, if_neg hlon]; rfl)
      | (unfold initial_bearing; rw [if_neg hlat, if_neg hlon]; rfl)
      | (unfold final_bearing; rw [if_neg hlat, if_neg hlon]; rfl)
      | (unfold midpoint; rw [if_neg hlat, if_neg hlon]; rfl)
      | (unfold intersection; rw [if_neg hlat, if_neg hlon]; rfl)
      | (unfold rhumb_distance; rw [if_neg hlat, if_neg hlon]; rfl)
      | (unfold rhumb_bearing; rw [if_neg hlat, if_neg hlon]; rfl)
      | (unfold rhumb_destination_point; rw [if_neg hlat1, if_neg hlon1]; rfl)
      | (unfold rhumb_midpoint; rw [if_neg hlat1, if_neg hlon1]; rfl)
      | (unfold destination_point; rw [if_neg hlat1, if_neg hlon1]; rfl)

/-- C2 witness: the guarantee evaluated at a concrete valid input over the
rational test instance. -/
theorem c2_witness :
    ((-90 : ℚ) ≤ 10 ∧ (10 : ℚ) ≤ 90 ∧ (-90 : ℚ) ≤ 50 ∧ (50 : ℚ) ≤ 90 ∧
      (-180 : ℚ) ≤ 20 ∧ (20 : ℚ) ≤ 180 ∧ (-180 : ℚ) ≤ 30 ∧ (30 : ℚ) ≤ 180) ∧
    resOk (distance_haversine toyQ 10 20 50 30) = true ∧
    resOk (distance_sloc toyQ 10 20 50 30) = true ∧
    resOk (initial_bearing toyQ 10 20 50 30) = true ∧
    resOk (final_bearing toyQ 10 20 50 30) = true ∧
    resOk (midpoint toyQ 10 20 50 30) = true ∧
    resOk (intersection toyQ 10 20 77 50 30 88) = true ∧
    resOk (rhumb_distance toyQ 10 20 50 30) = true ∧
    resOk (rhumb_bearing toyQ 10 20 50 30) = true ∧
    resOk (rhumb_destination_point toyQ 10 20 77 40) = true ∧
    resOk (rhumb_midpoint toyQ 10 20 50 30) = true ∧
    resOk (destination_point toyQ 10 20 77 40) = true :=
  ⟨by norm_num,
    c2_every_operation_returns toyQ 10 20 50 30 77 88 77 40
      (by norm_num) (by norm_num) (by norm_num) (by norm_num)
      (by norm_num) (by norm_num) (by norm_num) (by norm_num)⟩

/-- C10: every formula function catches internal math exceptions
(`ValueError` from a domain error, `ZeroDivisionError`) and returns the
bare number 1 — indistinguishable from a legitimate result of 1 — rather
than raising or returning a distinct failure marker: whenever a try-block
computation raises (is `none`), the call returns `ok 1`. -/
theorem c10_internal_exception_returns_one (M : MathLib α)
    (lat1 lon1 lat2 lon2 brng1 brng2 brng dist : α)
    (h1 : -90 ≤ lat1) (h2 : lat1 ≤ 90) (h3 : -90 ≤ lat2) (h4 : lat2 ≤ 90)
    (h5 : -180 ≤ lon1) (h6 : lon1 ≤ 180) (h7 : -180 ≤ lon2) (h8 : lon2 ≤ 180) :
    (distance_haversine_core M lat1 lon1 lat2 lon2 = none →
      distance_haversine M lat1 lon1 lat2 lon2 = .ok (.num 1)) ∧
    (distance_sloc_core M lat1 lon1 lat2 lon2 = none →
      distance_sloc M lat1 lon1 lat2 lon2 = .ok (.num 1)) ∧
    (initial_bearing_core M lat1 lon1 lat2 lon2 = none →
      initial_bearing M lat1 lon1 lat2 lon2 = .ok (.num 1)) ∧
    (final_bearing_core M lat1 lon1 lat2 lon2 = none →
      final_bearing M lat1 lon1 lat2 lon2 = .ok (.num 1)) ∧
    (midpoint_core M lat1 lon1 lat2 lon2 = none →
      midpoint M lat1 lon1 lat2 lon2 = .ok (.num 1)) ∧
    (intersection_core M lat1 lon1 brng1 lat2 lon2 brng2 = none →
      intersection M lat1 lon1 brng1 lat2 lon2 brng2 = .ok (.num 1)) ∧
    (rhumb_distance_core M lat1 lon1 lat2 lon2 = none →
      rhumb_distance M lat1 lon1 lat2 lon2 = .ok (.num 1)) ∧
    (rhumb_bearing_core M lat1 lon1 lat2 lon2 = none →
      rhumb_bearing M lat1 lon1 lat2 lon2 = .ok (.num 1)) ∧
    (rhumb_destination_point_core M lat1 lon1 brng dist = none →
      rhumb_destination_point M lat1 lon1 brng dist = .ok (.num 1)) ∧
    (rhumb_midpoint_core M lat1 lon1 lat2 lon2 = none →
      rhumb_midpoint M lat1 lon1 lat2 lon2 = .ok (.num 1)) ∧
    (destination_point_core M lat1 lon1 brng dist = none →
      destination_point M lat1 lon1 brng dist = .ok (.num 1)) := by
  have hlat := not_badLat2 h1 h2 h3 h4
  have hlon := not_badLon2 h5 h6 h7 h8
  have hlat1 := not_badLat1 h1 h2
  have hlon1 := not_badLon1 h5 h6
  refine ⟨?_, ?_, ?_, ?_, ?_, ?_, ?_, ?_, ?_, ?_, ?_⟩ <;> intro hc <;>
    · first
      | (unfold distance_haversine; rw [if_neg hlat, if_neg hlon, hc]; rfl)
      | (unfold distance_sloc; rw [if_neg hlat, if_neg hlon, hc]; rfl)
      | (unfold initial_bearing; rw [if_neg hlat, if_neg hlon, hc]; rfl)
      | (unfold final_bearing; rw [if_neg hlat, if_neg hlon, hc]; rfl)
      | (unfold midpoint; rw [if_neg hlat, if_neg hlon, hc]; rfl)
      | (unfold intersection; rw [if_neg hlat, if_neg hlon, hc]; rfl)
      | (unfold rhumb_distance; rw [if_neg hlat, if_neg hlon, hc]; rfl)
      | (unfold rhumb_bearing; rw [if_neg hlat, if_neg hlon, hc]; rfl)
      | (unfold rhumb_destination_point; rw [if_neg hlat1, if_neg hlon1, hc]; rfl)
      | (unfold rhumb_midpoint; rw [if_neg hlat1, if_neg hlon1, hc]; rfl)
      | (unfold destination_point; rw [if_neg hlat1, if_neg hlon1, hc]; rfl)

/-- C10 witness: at `rhumb_distance(0, 0, 0, 10)` over the rational test
instance the try-block raises (`tan` table gives `0/0`), and the call
indeed returns the bare 1. -/
theorem c10_witness :
    rhumb_distance_core toyQ 0 0 0 10 = none ∧
    rhumb_distance toyQ 0 0 0 10 = .ok (.num 1) := by
  have hcore : rhumb_distance_core toyQ 0 0 0 10 = none := by
    norm_num [rhumb_distance_core, radians, mdiv, toyQ]
  exact ⟨hcore,
    ((((((c10_internal_exception_returns_one toyQ 0 0 0 10 0 0 0 0
      (by norm_num) (by norm_num) (by norm_num) (by norm_num)
      (by norm_num) (by norm_num) (by norm_num) (by norm_num)).2).2).2).2).2).2.1 hcore⟩

/-- C8: on valid inputs `initial_bearing` and `final_bearing` both return
a bare number in `[0, 360)`, and the two numbers are `(deg + 360) % 360`
and `(deg + 180) % 360` of the same `atan2` bearing formula. -/
theorem c8_bearings_in_range (M : MathLib α) (lat1 lon1 lat2 lon2 : α)
    (h1 : -90 ≤ lat1) (h2 : lat1 ≤ 90) (h3 : -90 ≤ lat2) (h4 : lat2 ≤ 90)
    (h5 : -180 ≤ lon1) (h6 : lon1 ≤ 180) (h7 : -180 ≤ lon2) (h8 : lon2 ≤ 180) :
    ∃ b1 b2 : α,
      initial_bearing M lat1 lon1 lat2 lon2 = .ok (.num b1) ∧
      final_bearing M lat1 lon1 lat2 lon2 = .ok (.num b2) ∧
      b1 = fmod (degrees M (bearing_raw M lat1 lon1 lat2 lon2) + 360) 360 ∧
      b2 = fmod (degrees M (bearing_raw M lat1 lon1 lat2 lon2) + 180) 360 ∧
      0 ≤ b1 ∧ b1 < 360 ∧ 0 ≤ b2 ∧ b2 < 360 := by
  have hlat := not_badLat2 h1 h2 h3 h4
  have hlon := not_badLon2 h5 h6 h7 h8
  have h360 : (0 : α) < 360 := by norm_num
  refine ⟨fmod (degrees M (bearing_raw M lat1 lon1 lat2 lon2) + 360) 360,
    fmod (degrees M (bearing_raw M lat1 lon1 lat2 lon2) + 180) 360, ?_, ?_,
    rfl, rfl, fmod_nonneg _ h360, fmod_lt _ h360, fmod_nonneg _ h360, fmod_lt _ h360⟩
  · unfold initial_bearing
    rw [if_neg hlat, if_neg hlon]
    rfl
  · unfold final_bearing
    rw [if_neg hlat, if_neg hlon]
    rfl

/-- C8 witness: the bearing range property evaluated at a concrete valid
input over the rational test instance. -/
theorem c8_witness :
    ((-90 : ℚ) ≤ 10 ∧ (10 : ℚ) ≤ 90 ∧ (-90 : ℚ) ≤ 50 ∧ (50 : ℚ) ≤ 90 ∧
      (-180 : ℚ) ≤ 20 ∧ (20 : ℚ) ≤ 180 ∧ (-180 : ℚ) ≤ 30 ∧ (30 : ℚ) ≤ 180) ∧
    (∃ b1 b2 : ℚ,
      initial_bearing toyQ 10 20 50 30 = .ok (.num b1) ∧
      final_bearing toyQ 10 20 50 30 = .ok (.num b2) ∧
      b1 = fmod (degrees toyQ (bearing_raw toyQ 10 20 50 30) + 360) 360 ∧
      b2 = fmod (degrees toyQ (bearing_raw toyQ 10 20 50 30) + 180) 360 ∧
      0 ≤ b1 ∧ b1 < 360 ∧ 0 ≤ b2 ∧ b2 < 360) :=
  ⟨by norm_num,
    c8_bearings_in_range toyQ 10 20 50 30
      (by norm_num) (by norm_num) (by norm_num) (by norm_num)
      (by norm_num) (by norm_num) (by norm_num) (by norm_num)⟩

/-- C4: the claim says that when `Δlat/dPhi` is non-finite — "including
lat1 = lat2 exactly" — `rhumb_distance` substitutes `q = cos(lat1)` and
returns `R * sqrt(Δlat^2 + q^2 * Δlon^2)`.  In the code, `lat1 = lat2`
makes `dPhi = log(tan(x)/tan(x)) = log 1 = 0`, and the division `dLat/dPhi`
written inside `math.isinf(...)` raises `ZeroDivisionError` before `isinf`
can run; the handler returns the masked value 1.  At (10, 0, 10, 20) the
claimed value would be about 2203 km; the call returns 1, for every sane
math library. -/
theorem c4_rhumb_distance_equal_lats_returns_one (M : MathLib α)
    (hM : M.Sane) : rhumb_distance M 10 0 10 20 = .ok (.num 1) := by
  have hone : ¬ ((1 : α) ≤ 0) := by norm_num
  have hcore : rhumb_distance_core M 10 0 10 20 = none := by
    by_cases hf : M.tan (radians M (10 : α) / 2 + M.pi / 4) = 0
    · simp [rhumb_distance_core, mdiv, hf]
    · simp [rhumb_distance_core, mdiv, hf, div_self hf, mlog, hone, hM.log_one]
  unfold rhumb_distance
  rw [if_neg (not_badLat2 (by norm_num) (by norm_num) (by norm_num) (by norm_num)),
    if_neg (not_badLon2 (by norm_num) (by norm_num) (by norm_num) (by norm_num)),
    hcore]
  rfl

/-- C4 witness: the masked failure evaluated over the rational test
instance. -/
theorem c4_witness :
    toyQ.Sane ∧ rhumb_distance toyQ 10 0 10 20 = .ok (.num 1) :=
  ⟨toyQ_sane, c4_rhumb_distance_equal_lats_returns_one toyQ toyQ_sane⟩

/-- C9: the claim says that for two points on a parallel (`lat1 = lat2`)
`rhumb_midpoint` returns the arithmetic means of the coordinates rather
than failing.  In the code the denominator `log(f2/f1)` is `log 1 = 0`, so
the longitude division raises `ZeroDivisionError` (the `isnan` fallback to
the mean longitude is unreachable: CPython raises instead of producing
NaN), and the handler returns the masked value 1.  At (50, 0, 50, 20) the
claimed value would be `[50, 10]`; the call returns 1, for every sane math
library. -/
theorem c9_rhumb_midpoint_parallel_returns_one (M : MathLib α)
    (hM : M.Sane) : rhumb_midpoint M 50 0 50 20 = .ok (.num 1) := by
  have hone : ¬ ((1 : α) ≤ 0) := by norm_num
  have hcore : rhumb_midpoint_core M 50 0 50 20 = none := by
    have hmid : (radians M (50 : α) + radians M (50 : α)) / 2 = radians M 50 :=
      add_self_div_two _
    by_cases hf1 : M.tan (M.pi / 4 + radians M (50 : α) / 2) ≤ 0
    · simp [rhumb_midpoint_core, mlog, hmid, hf1]
    · have hne : M.tan (M.pi / 4 + radians M (50 : α) / 2) ≠ 0 :=
        ne_of_gt (lt_of_not_le hf1)
      simp [rhumb_midpoint_core, mlog, mdiv, hmid, hf1, hne, div_self hne,
        hone, hM.log_one]
  unfold rhumb_midpoint
  rw [if_neg (not_badLat1 (by norm_num) (by norm_num)),
    if_neg (not_badLon1 (by norm_num) (by norm_num)), hcore]
  rfl

/-- C9 witness: the masked failure evaluated over the rational test
instance. -/
theorem c9_witness :
    toyQ.Sane ∧ rhumb_midpoint toyQ 50 0 50 20 = .ok (.num 1) :=
  ⟨toyQ_sane, c9_rhumb_midpoint_parallel_returns_one toyQ toyQ_sane⟩

/-- C6: on valid coordinates the haversine distance is symmetric in its two
points, and the distance from a point to itself is exactly 0. -/
theorem c6_haversine_symmetric_and_self_zero (M : MathLib α) (hM : M.Sane)
    (lat1 lon1 lat2 lon2 : α)
    (h1 : -90 ≤ lat1) (h2 : lat1 ≤ 90) (h3 : -90 ≤ lat2) (h4 : lat2 ≤ 90)
    (h5 : -180 ≤ lon1) (h6 : lon1 ≤ 180) (h7 : -180 ≤ lon2) (h8 : lon2 ≤ 180) :
    distance_haversine M lat1 lon1 lat2 lon2 = distance_haversine M lat2 lon2 lat1 lon1 ∧
    distance_haversine M lat1 lon1 lat1 lon1 = .ok (.num 0) := by
  have hsin2 : ∀ x y : α,
      M.sin (radians M (x - y) / 2) = -(M.sin (radians M (y - x) / 2)) := by
    intro x y
    have harg : radians M (x - y) / 2 = -(radians M (y - x) / 2) := by
      unfold radians
      ring
    rw [harg, hM.sin_neg]
  constructor
  · unfold distance_haversine
    rw [if_neg (not_badLat2 h1 h2 h3 h4), if_neg (not_badLon2 h5 h6 h7 h8),
      if_neg (not_badLat2 h3 h4 h1 h2), if_neg (not_badLon2 h7 h8 h5 h6)]
    have hA : M.sin (radians M (lat2 - lat1) / 2) * M.sin (radians M (lat2 - lat1) / 2) +
        M.cos (radians M lat1) * M.cos (radians M lat2) *
        M.sin (radians M (lon2 - lon1) / 2) * M.sin (radians M (lon2 - lon1) / 2) =
        M.sin (radians M (lat1 - lat2) / 2) * M.sin (radians M (lat1 - lat2) / 2) +
        M.cos (radians M lat2) * M.cos (radians M lat1) *
        M.sin (radians M (lon1 - lon2) / 2) * M.sin (radians M (lon1 - lon2) / 2) := by
      rw [hsin2 lat1 lat2, hsin2 lon1 lon2]
      ring
    simp only [distance_haversine_core, hA]
  · unfold distance_haversine
    rw [if_neg (not_badLat2 h1 h2 h1 h2), if_neg (not_badLon2 h5 h6 h5 h6)]
    have hz1 : radians M (lat1 - lat1) = 0 := by unfold radians; ring
    have hz2 : radians M (lon1 - lon1) = 0 := by unfold radians; ring
    have ha : M.sin (radians M (lat1 - lat1) / 2) * M.sin (radians M (lat1 - lat1) / 2) +
        M.cos (radians M lat1) * M.cos (radians M lat1) *
        M.sin (radians M (lon1 - lon1) / 2) * M.sin (radians M (lon1 - lon1) / 2) = 0 := by
      rw [hz1, hz2, zero_div, hM.sin_zero]
      ring
    have hnn : ¬ ((0 : α) < 0) := lt_irrefl 0
    have h1n : ¬ ((1 : α) < 0) := by norm_num
    simp only [distance_haversine_core, ha, msqrt, sub_zero, hnn, h1n, if_false,
      hM.sqrt_zero, hM.sqrt_one, Option.bind_eq_bind, Option.some_bind,
      Option.pure_def, hM.atan2_zero_one, mul_zero, runGeo, Option.getD_some]

/-- C6 witness: symmetry and self-distance zero evaluated at concrete
valid points over the rational test instance. -/
theorem c6_witness :
    toyQ.Sane ∧
    ((-90 : ℚ) ≤ 10 ∧ (10 : ℚ) ≤ 90 ∧ (-90 : ℚ) ≤ 50 ∧ (50 : ℚ) ≤ 90 ∧
      (-180 : ℚ) ≤ 20 ∧ (20 : ℚ) ≤ 180 ∧ (-180 : ℚ) ≤ 30 ∧ (30 : ℚ) ≤ 180) ∧
    distance_haversine toyQ 10 20 50 30 = distance_haversine toyQ 50 30 10 20 ∧
    distance_haversine toyQ 10 20 10 20 = .ok (.num 0) :=
  ⟨toyQ_sane, by norm_num,
    c6_haversine_symmetric_and_self_zero toyQ toyQ_sane 10 20 50 30
      (by norm_num) (by norm_num) (by norm_num) (by norm_num)
      (by norm_num) (by norm_num) (by norm_num) (by norm_num)⟩

theorem lon_norm_bounds (M : MathLib α) (hM : M.Sane) (X : α) :
    -180 ≤ degrees M (fmod X (2 * M.pi) - M.pi) ∧
    degrees M (fmod X (2 * M.pi) - M.pi) < 180 := by
  have hpi := hM.pi_pos
  have h2pi : (0 : α) < 2 * M.pi := by linarith
  have h0 := fmod_nonneg X h2pi
  have h1 := fmod_lt X h2pi
  unfold degrees
  constructor
  · rw [le_div_iff hpi]
    nlinarith
  · rw [div_lt_iff hpi]
    nlinarith

/-- If `destination_point` returns a pair, its longitude component has the
shape `degrees (x % (2 pi) - pi)` produced by the normalization line. -/
theorem destination_point_pair_lon (M : MathLib α) (lat1 lon1 brng dist la lo : α)
    (h : destination_point M lat1 lon1 brng dist = .ok (.pair la lo)) :
    ∃ X, lo = degrees M (fmod X (2 * M.pi) - M.pi) := by
  unfold destination_point at h
  split_ifs at h
  rw [Except.ok.injEq] at h
  cases hcore : destination_point_core M lat1 lon1 brng dist with
  | none => rw [hcore] at h; simp [runGeo] at h
  | some v =>
    rw [hcore] at h
    simp only [runGeo, Option.getD_some] at h
    subst h
    rw [destination_point_core] at hcore
    simp only [Option.bind_eq_bind, Option.bind_eq_some, Option.pure_def,
      Option.some_inj] at hcore
    obtain ⟨v2, hv2, hp⟩ := hcore
    rw [GeoRet.pair.injEq] at hp
    exact ⟨_, hp.2.symm⟩

/-- If `rhumb_destination_point` returns a pair, its longitude component
has the shape `degrees (x % (2 pi) - pi)` produced by the normalization
line. -/
theorem rhumb_destination_point_pair_lon (M : MathLib α)
    (lat1 lon1 brng dist la lo : α)
    (h : rhumb_destination_point M lat1 lon1 brng dist = .ok (.pair la lo)) :
    ∃ X, lo = degrees M (fmod X (2 * M.pi) - M.pi) := by
  unfold rhumb_destination_point at h
  split_ifs at h
  rw [Except.ok.injEq] at h
  cases hcore : rhumb_destination_point_core M lat1 lon1 brng dist with
  | none => rw [hcore] at h; simp [runGeo] at h
  | some v =>
    rw [hcore] at h
    simp only [runGeo, Option.getD_some] at h
    subst h
    rw [rhumb_destination_point_core] at hcore
    simp only [Option.bind_eq_bind, Option.bind_eq_some, Option.pure_def,
      Option.some_inj] at hcore
    obtain ⟨t, ht, dPhi, hdPhi, r, hr, dLon, hdLon, hp⟩ := hcore
    rw [GeoRet.pair.injEq] at hp
    exact ⟨_, hp.2.symm⟩

/-- C7 (amended): whenever `destination_point` or
`rhumb_destination_point` returns a `[lat, lon]` pair, the longitude lies
in the half-open interval `[-180, 180)` — closed at -180 and open at 180,
not the claimed `(-180, 180]`: the normalization
`(x + 3 pi) % (2 pi) - pi` lands in `[-pi, pi)`. -/
theorem c7_destination_lon_in_Ico (M : MathLib α) (hM : M.Sane)
    (lat1 lon1 brng dist la lo : α)
    (hd : destination_point M lat1 lon1 brng dist = .ok (.pair la lo) ∨
      rhumb_destination_point M lat1 lon1 brng dist = .ok (.pair la lo)) :
    -180 ≤ lo ∧ lo < 180 := by
  rcases hd with hd | hd
  · obtain ⟨X, hX⟩ := destination_point_pair_lon M lat1 lon1 brng dist la lo hd
    rw [hX]
    exact lon_norm_bounds M hM X
  · obtain ⟨X, hX⟩ := rhumb_destination_point_pair_lon M lat1 lon1 brng dist la lo hd
    rw [hX]
    exact lon_norm_bounds M hM X

/-- C7 witness: a concrete destination over the rational test instance
whose returned longitude the amended bound covers. -/
theorem c7_witness :
    toyQ.Sane ∧ destination_point toyQ 0 0 0 0 = .ok (.pair 0 0) ∧
    ((-180 : ℚ) ≤ 0 ∧ (0 : ℚ) < 180) := by
  have h : destination_point toyQ 0 0 0 0 = .ok (.pair 0 0) := by
    norm_num [destination_point, destination_point_core, badLat1, badLon1,
      radians, degrees, masin, runGeo, toyQ, fmod]
  exact ⟨toyQ_sane, h,
    c7_destination_lon_in_Ico toyQ toyQ_sane 0 0 0 0 0 0 (Or.inl h)⟩

/-- C7 counterexample: with the genuine real math library,
`destination_point(0, 180, 0, 0)` — a valid point with longitude exactly
180, zero distance — returns longitude exactly -180, which is outside the
claimed normalization interval `(-180, 180]`. -/
theorem c7_counterexample :
    ((-90 : ℝ) ≤ 0 ∧ (0 : ℝ) ≤ 90 ∧ (-180 : ℝ) ≤ 180 ∧ (180 : ℝ) ≤ 180) ∧
    destination_point realLib 0 180 0 0 = .ok (.pair 0 (-180)) ∧
    ¬ (-180 < (-180 : ℝ) ∧ (-180 : ℝ) ≤ 180) := by
  refine ⟨by norm_num, ?_, by simp⟩
  have hpi := Real.pi_pos
  have hpin : Real.pi ≠ 0 := ne_of_gt hpi
  have e1 : radians realLib (0 : ℝ) = 0 := by
    show (0 : ℝ) * Real.pi / 180 = 0
    ring
  have e2 : radians realLib (180 : ℝ) = Real.pi := by
    show (180 : ℝ) * Real.pi / 180 = Real.pi
    ring
  have e3 : realLib.sin (0 : ℝ) = 0 := Real.sin_zero
  have e4 : realLib.cos (0 : ℝ) = 1 := Real.cos_zero
  have e5 : masin realLib (0 : ℝ) = some 0 := by
    unfold masin
    rw [if_neg (by norm_num)]
    show some (Real.arcsin 0) = some 0
    rw [Real.arcsin_zero]
  have e6 : realLib.atan2 0 1 = 0 := by
    show Complex.arg ((1 : ℝ) + (0 : ℝ) * Complex.I) = 0
    norm_num [Complex.arg_one]
  have e7 : fmod (Real.pi + 3 * Real.pi) (2 * Real.pi) = 0 := by
    unfold fmod
    have hdiv : (Real.pi + 3 * Real.pi) / (2 * Real.pi) = 2 := by
      field_simp
      ring
    rw [hdiv, show ((2 : ℝ)) = ((2 : ℤ) : ℝ) by norm_num, Int.floor_intCast]
    push_cast
    ring
  have e8 : degrees realLib ((0 : ℝ) - Real.pi) = -180 := by
    unfold degrees
    show ((0 : ℝ) - Real.pi) * 180 / Real.pi = -180
    rw [div_eq_iff hpin]
    ring
  have e9 : degrees realLib (0 : ℝ) = 0 := by
    unfold degrees
    show (0 : ℝ) * 180 / realLib.pi = 0
    ring
  have hcore : destination_point_core realLib 0 180 0 0 = some (.pair 0 (-180)) := by
    simp only [destination_point_core, e1, e2, zero_div, e3, e4]
    norm_num [e5]
    have epi : realLib.pi = Real.pi := rfl
    exact ⟨e9, by rw [e6, epi, add_zero, e7]; exact e8⟩
  unfold destination_point
  rw [if_neg (not_badLat1 (by norm_num) (by norm_num)),
    if_neg (not_badLon1 (by norm_num) (by norm_num)), hcore]
  rfl

/-- Every outcome of the `intersection` try-block is an exception (`none`),
the bare sentinel 0, or a `[lat, lon]` pair. -/
theorem intersection_core_shape (M : MathLib α)
    (lat1 lon1 brng1 lat2 lon2 brng2 : α) :
    intersection_core M lat1 lon1 brng1 lat2 lon2 brng2 = none ∨
    intersection_core M lat1 lon1 brng1 lat2 lon2 brng2 = some (.num 0) ∨
    ∃ x y, intersection_core M lat1 lon1 brng1 lat2 lon2 brng2 = some (.pair x y) := by
  unfold intersection_core
  cases inter_d M lat1 lon1 lat2 lon2 with
  | none => exact Or.inl rfl
  | some d =>
    simp only [Option.bind_eq_bind, Option.some_bind]
    by_cases hd0 : d = 0
    · rw [if_pos hd0]
      exact Or.inr (Or.inl rfl)
    · rw [if_neg hd0]
      cases inter_a12 M lat1 lon1 brng1 lat2 lon2 brng2 d with
      | none => exact Or.inl rfl
      | some p =>
        simp only [Option.bind_eq_bind, Option.some_bind]
        by_cases hz : M.sin p.1 = 0 ∧ M.sin p.2 = 0
        · rw [if_pos hz]
          exact Or.inr (Or.inl rfl)
        · rw [if_neg hz]
          by_cases hneg : M.sin p.1 * M.sin p.2 < 0
          · rw [if_pos hneg]
            exact Or.inr (Or.inl rfl)
          · rw [if_neg hneg]
            cases macos M (-M.cos p.1 * M.cos p.2 + M.sin p.1 * M.sin p.2 * M.cos d) with
            | none => exact Or.inl rfl
            | some a3 =>
              simp only [Option.bind_eq_bind, Option.some_bind]
              cases masin M (M.sin (radians M lat1) *
                  M.cos (M.atan2 (M.sin d * M.sin p.1 * M.sin p.2)
                    (M.cos p.2 + M.cos p.1 * M.cos a3)) +
                  M.cos (radians M lat1) *
                  M.sin (M.atan2 (M.sin d * M.sin p.1 * M.sin p.2)
                    (M.cos p.2 + M.cos p.1 * M.cos a3)) *
                  M.cos (radians M brng1)) with
              | none => exact Or.inl rfl
              | some lat3 => exact Or.inr (Or.inr ⟨_, _, rfl⟩)

/-- The `intersection` try-block yields the bare sentinel 0 exactly when
one of the three degenerate checks fires. -/
theorem intersection_core_zero_iff (M : MathLib α)
    (lat1 lon1 brng1 lat2 lon2 brng2 : α) :
    intersection_core M lat1 lon1 brng1 lat2 lon2 brng2 = some (.num 0) ↔
    (∃ d, inter_d M lat1 lon1 lat2 lon2 = some d ∧
      (d = 0 ∨ ∃ p, inter_a12 M lat1 lon1 brng1 lat2 lon2 brng2 d = some p ∧
        ((M.sin p.1 = 0 ∧ M.sin p.2 = 0) ∨ M.sin p.1 * M.sin p.2 < 0))) := by
  unfold intersection_core
  cases inter_d M lat1 lon1 lat2 lon2 with
  | none => simp
  | some d =>
    simp only [Option.bind_eq_bind, Option.some_bind, Option.some_inj,
      exists_eq_left']
    by_cases hd0 : d = 0
    · simp [hd0]
    · rw [if_neg hd0]
      cases inter_a12 M lat1 lon1 brng1 lat2 lon2 brng2 d with
      | none => simp [hd0]
      | some p =>
        simp only [Option.bind_eq_bind, Option.some_bind, Option.some_inj,
          exists_eq_left', hd0, false_or]
        by_cases hz : M.sin p.1 = 0 ∧ M.sin p.2 = 0
        · simp [hz]
        · rw [if_neg hz]
          by_cases hneg : M.sin p.1 * M.sin p.2 < 0
          · simp [hneg]
          · rw [if_neg hneg]
            have hrhs : ¬ ((M.sin p.1 = 0 ∧ M.sin p.2 = 0) ∨
                M.sin p.1 * M.sin p.2 < 0) := by
              intro h
              rcases h with h | h
              · exact hz h
              · exact hneg h
            cases macos M (-M.cos p.1 * M.cos p.2 + M.sin p.1 * M.sin p.2 * M.cos d) with
            | none => simp [hrhs]
            | some a3 =>
              simp only [Option.bind_eq_bind, Option.some_bind]
              cases masin M (M.sin (radians M lat1) *
                  M.cos (M.atan2 (M.sin d * M.sin p.1 * M.sin p.2)
                    (M.cos p.2 + M.cos p.1 * M.cos a3)) +
                  M.cos (radians M lat1) *
                  M.sin (M.atan2 (M.sin d * M.sin p.1 * M.sin p.2)
                    (M.cos p.2 + M.cos p.1 * M.cos a3)) *
                  M.cos (radians M brng1)) with
              | none => simp [hrhs]
              | some lat3 => simp [hrhs]

/-- C3 (amended): on valid inputs `intersection` returns the bare
sentinel 0 exactly when a degenerate check fires (`d = 0`; or
`sin a1 = 0` and `sin a2 = 0`; or `sin a1 * sin a2 < 0`), and otherwise
returns either a `[lat3, lon3]` pair in degrees or the bare
masked-exception value 1 when the try-block raises (e.g. a polar start
point, where the course angle `f1` is 0/0-indeterminate: CPython's `acos`
gets a quotient outside `[-1, 1]` and raises, exact arithmetic divides by
`sin d * cos(pi/2) = 0` — an outcome the original claim omits); in
particular two identical points with identical bearings give `d = 0` and
hence the sentinel 0. -/
theorem c3_intersection_sentinel (M : MathLib α) (hM : M.Sane)
    (lat1 lon1 brng1 lat2 lon2 brng2 : α)
    (h1 : -90 ≤ lat1) (h2 : lat1 ≤ 90) (h3 : -90 ≤ lat2) (h4 : lat2 ≤ 90)
    (h5 : -180 ≤ lon1) (h6 : lon1 ≤ 180) (h7 : -180 ≤ lon2) (h8 : lon2 ≤ 180) :
    (∃ r, intersection M lat1 lon1 brng1 lat2 lon2 brng2 = .ok r ∧
      (r = .num 0 ∨ r = .num 1 ∨ r.isPair = true)) ∧
    (intersection M lat1 lon1 brng1 lat2 lon2 brng2 = .ok (.num 0) ↔
      (∃ d, inter_d M lat1 lon1 lat2 lon2 = some d ∧
        (d = 0 ∨ ∃ p, inter_a12 M lat1 lon1 brng1 lat2 lon2 brng2 d = some p ∧
          ((M.sin p.1 = 0 ∧ M.sin p.2 = 0) ∨ M.sin p.1 * M.sin p.2 < 0)))) ∧
    (lat1 = lat2 → lon1 = lon2 → brng1 = brng2 →
      intersection M lat1 lon1 brng1 lat2 lon2 brng2 = .ok (.num 0)) := by
  have hw : intersection M lat1 lon1 brng1 lat2 lon2 brng2 =
      .ok (runGeo (intersection_core M lat1 lon1 brng1 lat2 lon2 brng2)) := by
    unfold intersection
    rw [if_neg (not_badLat2 h1 h2 h3 h4), if_neg (not_badLon2 h5 h6 h7 h8)]
  refine ⟨?_, ?_, ?_⟩
  · rcases intersection_core_shape M lat1 lon1 brng1 lat2 lon2 brng2 with h | h | ⟨x, y, h⟩
    · exact ⟨.num 1, by rw [hw, h]; rfl, Or.inr (Or.inl rfl)⟩
    · exact ⟨.num 0, by rw [hw, h]; rfl, Or.inl rfl⟩
    · exact ⟨.pair x y, by rw [hw, h]; rfl, Or.inr (Or.inr rfl)⟩
  · rw [hw, ← intersection_core_zero_iff M lat1 lon1 brng1 lat2 lon2 brng2]
    constructor
    · intro h
      rcases intersection_core_shape M lat1 lon1 brng1 lat2 lon2 brng2 with hs | hs | ⟨x, y, hs⟩
      · rw [hs] at h
        simp only [runGeo, Option.getD_none, Except.ok.injEq] at h
        exact absurd h (by simp)
      · exact hs
      · rw [hs] at h
        simp only [runGeo, Option.getD_some, Except.ok.injEq] at h
        exact absurd h (by simp)
    · intro h
      rw [h]
      rfl
  · intro e1 e2 e3
    subst e1
    subst e2
    subst e3
    have hd : inter_d M lat1 lon1 lat1 lon1 = some 0 := by
      unfold inter_d
      norm_num [sub_self, zero_div, hM.sin_zero, msqrt, masin, hM.sqrt_zero,
        hM.asin_zero]
    rw [hw]
    simp only [intersection_core, hd, Option.bind_eq_bind, Option.some_bind,
      eq_self_iff_true, if_true, Option.pure_def, runGeo, Option.getD_some]

/-- C3 counterexample: at the valid polar configuration
`intersection(90, 0, 0, 0, 10, 0)` the separation is `d = pi/2` (nonzero,
so the coincident check does not fire, and `a1`, `a2` never come to exist:
the course angle `f1` from the north pole is 0/0-indeterminate, so the
try-block raises — in IEEE-754 doubles the `acos` argument is
`-4.626...`, a `ValueError`; in the exact real model the divisor
`sin d * cos(pi/2)` is exactly 0 — and the handler returns the bare 1),
so the call returns neither the sentinel 0 nor a `[lat, lon]` pair,
contradicting the claimed trichotomy.  Proved over the genuine real math
library. -/
theorem c3_counterexample :
    ((-90 : ℝ) ≤ 90 ∧ (90 : ℝ) ≤ 90 ∧ (-90 : ℝ) ≤ 0 ∧ (0 : ℝ) ≤ 90 ∧
      (-180 : ℝ) ≤ 0 ∧ (0 : ℝ) ≤ 180 ∧ (-180 : ℝ) ≤ 10 ∧ (10 : ℝ) ≤ 180) ∧
    inter_d realLib 90 0 0 10 = some (Real.pi / 2) ∧ Real.pi / 2 ≠ 0 ∧
    intersection realLib 90 0 0 0 10 0 = .ok (.num 1) ∧
    GeoRet.num (1 : ℝ) ≠ .num 0 ∧ (GeoRet.num (1 : ℝ)).isPair = false := by
  have hpi := Real.pi_pos
  have es : realLib.sin = Real.sin := rfl
  have ec : realLib.cos = Real.cos := rfl
  have e90 : radians realLib (90 : ℝ) = Real.pi / 2 := by
    show (90 : ℝ) * Real.pi / 180 = Real.pi / 2
    ring
  have e0 : radians realLib (0 : ℝ) = 0 := by
    show (0 : ℝ) * Real.pi / 180 = 0
    ring
  have hne2 : Real.pi / 2 ≠ 0 := by positivity
  have hd : inter_d realLib 90 0 0 10 = some (Real.pi / 2) := by
    simp only [inter_d, es, ec, e90, e0]
    rw [show ((0 : ℝ) - Real.pi / 2) / 2 = -(Real.pi / 4) from by ring,
      Real.sin_neg, Real.sin_pi_div_four, Real.cos_pi_div_two]
    have h2 : Real.sqrt 2 * Real.sqrt 2 = 2 :=
      Real.mul_self_sqrt (by norm_num)
    rw [show -(Real.sqrt 2 / 2) * -(Real.sqrt 2 / 2) +
        0 * Real.cos 0 * Real.sin ((radians realLib 10 - 0) / 2) *
        Real.sin ((radians realLib 10 - 0) / 2) = 1 / 2 from by
      linear_combination h2 / 4]
    rw [show msqrt realLib ((1 : ℝ) / 2) = some (Real.sqrt (1 / 2)) from by
      unfold msqrt
      rw [if_neg (by norm_num)]
      rfl]
    have hsqrt12 : Real.sqrt ((1 : ℝ) / 2) = Real.sin (Real.pi / 4) := by
      rw [Real.sin_pi_div_four,
        show (1 : ℝ) / 2 = (Real.sqrt 2 / 2) ^ 2 from by
          rw [div_pow, Real.sq_sqrt (by norm_num : (0 : ℝ) ≤ 2)]
          norm_num,
        Real.sqrt_sq (by positivity)]
    rw [hsqrt12]
    simp only [Option.bind_eq_bind, Option.some_bind]
    rw [show masin realLib (Real.sin (Real.pi / 4)) = some (Real.pi / 4) from by
      unfold masin
      rw [if_neg (by
        push_neg
        exact ⟨by linarith [Real.neg_one_le_sin (Real.pi / 4)],
          Real.sin_le_one _⟩)]
      show some (Real.arcsin (Real.sin (Real.pi / 4))) = some (Real.pi / 4)
      rw [Real.arcsin_sin (by linarith) (by linarith)]]
    simp only [Option.some_bind]
    rw [show (2 : ℝ) * (Real.pi / 4) = Real.pi / 2 from by ring]
    rfl
  have hf1 : inter_f1 realLib (90 : ℝ) 0 (Real.pi / 2) = none := by
    simp only [inter_f1, es, ec, e90]
    rw [Real.cos_pi_div_two, mul_zero]
    simp [mdiv]
  have ha12 : inter_a12 realLib 90 0 0 0 10 0 (Real.pi / 2) = none := by
    simp only [inter_a12, hf1, Option.bind_eq_bind, Option.none_bind]
  have hint : intersection realLib 90 0 0 0 10 0 = .ok (.num 1) := by
    unfold intersection
    rw [if_neg (not_badLat2 (by norm_num) (by norm_num) (by norm_num) (by norm_num)),
      if_neg (not_badLon2 (by norm_num) (by norm_num) (by norm_num) (by norm_num))]
    simp only [intersection_core, hd, Option.bind_eq_bind, Option.some_bind]
    rw [if_neg hne2]
    simp only [ha12, Option.none_bind]
    rfl
  exact ⟨by norm_num, hd, hne2, hint, by simp, rfl⟩

/-- C3 witness: the amended trichotomy and the identical-points sentinel
evaluated at a concrete valid input over the rational test instance. -/
theorem c3_witness :
    toyQ.Sane ∧
    ((-90 : ℚ) ≤ 10 ∧ (10 : ℚ) ≤ 90 ∧ (-180 : ℚ) ≤ 20 ∧ (20 : ℚ) ≤ 180) ∧
    (∃ r, intersection toyQ 10 20 33 10 20 33 = .ok r ∧
      (r = .num 0 ∨ r = .num 1 ∨ r.isPair = true)) ∧
    intersection toyQ 10 20 33 10 20 33 = .ok (.num 0) := by
  have h := c3_intersection_sentinel toyQ toyQ_sane 10 20 33 10 20 33
    (by norm_num) (by norm_num) (by norm_num) (by norm_num)
    (by norm_num) (by norm_num) (by norm_num) (by norm_num)
  exact ⟨toyQ_sane, by norm_num, h.1, h.2.2 rfl rfl rfl⟩

set_option maxHeartbeats 1000000 in
/-- C5: on the genuine real math library, for a valid start point p, any
bearing, and any distance d with `0 <= d <= pi * R` (at most half the
Earth's circumference), `destination_point(p, bearing, d)` returns a
`[lat, lon]` pair, and feeding it back into `distance_haversine(p, result)`
recovers exactly d. -/
theorem c5_destination_haversine_roundtrip (lat1 lon1 brng dist : ℝ)
    (h1 : -90 ≤ lat1) (h2 : lat1 ≤ 90) (h5 : -180 ≤ lon1) (h6 : lon1 ≤ 180)
    (hd0 : 0 ≤ dist) (hd1 : dist ≤ Real.pi * 6371) :
    ∃ la lo, destination_point realLib lat1 lon1 brng dist = .ok (.pair la lo) ∧
      distance_haversine realLib lat1 lon1 la lo = .ok (.num dist) := by
  have hpi := Real.pi_pos
  have hpin : Real.pi ≠ 0 := ne_of_gt hpi
  have es : realLib.sin = Real.sin := rfl
  have ec : realLib.cos = Real.cos := rfl
  have ea : realLib.asin = Real.arcsin := rfl
  have ep : realLib.pi = Real.pi := rfl
  have esq : realLib.sqrt = Real.sqrt := rfl
  obtain ⟨δ, hδ⟩ : ∃ x : ℝ, x = dist / 6371 := ⟨_, rfl⟩
  obtain ⟨φ1, hφ1⟩ : ∃ x : ℝ, x = radians realLib lat1 := ⟨_, rfl⟩
  obtain ⟨θ, hθ⟩ : ∃ x : ℝ, x = radians realLib brng := ⟨_, rfl⟩
  obtain ⟨lam1, hlam1⟩ : ∃ x : ℝ, x = radians realLib lon1 := ⟨_, rfl⟩
  obtain ⟨s2, hs2⟩ : ∃ x : ℝ,
    x = Real.sin φ1 * Real.cos δ + Real.cos φ1 * Real.sin δ * Real.cos θ := ⟨_, rfl⟩
  have hφ1e : φ1 = lat1 * Real.pi / 180 := hφ1
  have hlam1e : lam1 = lon1 * Real.pi / 180 := hlam1
  have hδ0 : 0 ≤ δ := by
    rw [hδ]
    positivity
  have hδπ : δ ≤ Real.pi := by
    rw [hδ, div_le_iff (by norm_num : (0:ℝ) < 6371)]
    linarith only [hd1]
  have hφ1lo : -(Real.pi/2) ≤ φ1 := by
    rw [hφ1e, show -(Real.pi/2) = -90 * Real.pi / 180 from by ring]
    exact (div_le_div_right (by norm_num : (0:ℝ) < 180)).mpr
      (mul_le_mul_of_nonneg_right h1 (le_of_lt hpi))
  have hφ1hi : φ1 ≤ Real.pi/2 := by
    rw [hφ1e, show Real.pi/2 = 90 * Real.pi / 180 from by ring]
    exact (div_le_div_right (by norm_num : (0:ℝ) < 180)).mpr
      (mul_le_mul_of_nonneg_right h2 (le_of_lt hpi))
  have hcosφ1nn : 0 ≤ Real.cos φ1 := Real.cos_nonneg_of_mem_Icc ⟨hφ1lo, hφ1hi⟩
  obtain ⟨u, hu⟩ : ∃ x : ℝ,
    x = Real.cos δ * Real.cos φ1 - Real.sin φ1 * Real.sin δ * Real.cos θ := ⟨_, rfl⟩
  have P1 := Real.sin_sq_add_cos_sq φ1
  have P2 := Real.sin_sq_add_cos_sq δ
  have P3 := Real.sin_sq_add_cos_sq θ
  have I1 : s2 ^ 2 + u ^ 2 + Real.sin θ ^ 2 * Real.sin δ ^ 2 = 1 := by
    rw [hs2, hu]
    linear_combination (Real.cos δ ^ 2 + Real.sin δ ^ 2 * Real.cos θ ^ 2) * P1 +
      Real.sin δ ^ 2 * P3 + P2
  have hprodnn : 0 ≤ Real.sin θ ^ 2 * Real.sin δ ^ 2 :=
    mul_nonneg (sq_nonneg _) (sq_nonneg _)
  have hs2sq : s2 ^ 2 ≤ 1 := by
    linarith only [I1, sq_nonneg u, hprodnn]
  have habs := abs_le.mp ((sq_le_one_iff_abs_le_one s2).mp hs2sq)
  have hs2lo : -1 ≤ s2 := habs.1
  have hs2hi : s2 ≤ 1 := habs.2
  obtain ⟨φ2, hφ2⟩ : ∃ x : ℝ, x = Real.arcsin s2 := ⟨_, rfl⟩
  have hsinφ2 : Real.sin φ2 = s2 := by
    rw [hφ2]
    exact Real.sin_arcsin hs2lo hs2hi
  have hcosφ2nn : 0 ≤ Real.cos φ2 := by
    rw [hφ2]
    exact Real.cos_arcsin_nonneg s2
  have hcosφ2sq : Real.cos φ2 ^ 2 = 1 - s2 ^ 2 := by
    have hP := Real.sin_sq_add_cos_sq φ2
    rw [hsinφ2] at hP
    linarith only [hP]
  obtain ⟨Y, hY⟩ : ∃ x : ℝ, x = Real.sin θ * Real.sin δ * Real.cos φ1 := ⟨_, rfl⟩
  obtain ⟨X, hX⟩ : ∃ x : ℝ, x = Real.cos δ - Real.sin φ1 * s2 := ⟨_, rfl⟩
  have I2 : X = Real.cos φ1 * u := by
    rw [hX, hs2, hu]
    linear_combination (-(Real.cos δ)) * P1
  have hXY : X ^ 2 + Y ^ 2 = (Real.cos φ1 * Real.cos φ2) ^ 2 := by
    rw [hY]
    linear_combination (X + Real.cos φ1 * u) * I2 + Real.cos φ1 ^ 2 * I1 -
      Real.cos φ1 ^ 2 * hcosφ2sq
  obtain ⟨dLam, hdLam⟩ : ∃ x : ℝ, x = realLib.atan2 Y X := ⟨_, rfl⟩
  have hΔcos : Real.cos φ1 * Real.cos φ2 * Real.cos dLam = X := by
    by_cases h0 : X ^ 2 + Y ^ 2 = 0
    · have hx2 : X ^ 2 = 0 :=
        le_antisymm (by linarith only [h0, sq_nonneg Y]) (sq_nonneg X)
      have hX0 : X = 0 := (pow_eq_zero_iff (two_ne_zero)).mp hx2
      have hcc2 : (Real.cos φ1 * Real.cos φ2) ^ 2 = 0 := by
        rw [← hXY]
        exact h0
      have hc0 : Real.cos φ1 * Real.cos φ2 = 0 :=
        (pow_eq_zero_iff (two_ne_zero)).mp hcc2
      rw [hc0, zero_mul, hX0]
    · have hzne : (X : ℂ) + (Y : ℝ) * Complex.I ≠ 0 := by
        intro h
        apply h0
        have hre := congrArg Complex.re h
        have him := congrArg Complex.im h
        simp only [Complex.add_re, Complex.ofReal_re, Complex.mul_re,
          Complex.ofReal_im, Complex.I_re, Complex.I_im, Complex.add_im,
          Complex.mul_im, Complex.zero_re, Complex.zero_im] at hre him
        rw [show X = 0 from by linarith only [hre],
          show Y = 0 from by linarith only [him]]
        ring
      have hargX : realLib.atan2 Y X = Complex.arg ((X : ℂ) + (Y : ℝ) * Complex.I) := rfl
      have harg : Real.cos dLam = X / Real.sqrt (X ^ 2 + Y ^ 2) := by
        rw [hdLam, hargX, Complex.cos_arg hzne, Complex.abs_add_mul_I]
        congr 1
        simp
      have hcc : Real.sqrt (X ^ 2 + Y ^ 2) = Real.cos φ1 * Real.cos φ2 := by
        rw [hXY, Real.sqrt_sq (mul_nonneg hcosφ1nn hcosφ2nn)]
      have hccne : Real.cos φ1 * Real.cos φ2 ≠ 0 := by
        intro h
        apply h0
        rw [hXY, h]
        ring
      rw [harg, hcc]
      field_simp
  have hmas : masin realLib s2 = some (Real.arcsin s2) := by
    unfold masin
    rw [if_neg (by push_neg; exact ⟨by linarith only [hs2lo], by linarith only [hs2hi]⟩), ea]
  obtain ⟨A, hA⟩ : ∃ x : ℝ, x = lam1 + dLam + 3 * Real.pi := ⟨_, rfl⟩
  obtain ⟨lo, hlo⟩ : ∃ x : ℝ, x = degrees realLib (fmod A (2 * Real.pi) - Real.pi) := ⟨_, rfl⟩
  obtain ⟨la, hla⟩ : ∃ x : ℝ, x = degrees realLib φ2 := ⟨_, rfl⟩
  have hlae : la = φ2 * 180 / Real.pi := hla
  have hloe : lo = (fmod A (2 * Real.pi) - Real.pi) * 180 / Real.pi := hlo
  have hcore : destination_point_core realLib lat1 lon1 brng dist =
      some (.pair la lo) := by
    simp only [destination_point_core, es, ec, ep, ← hδ, ← hφ1, ← hθ, ← hlam1, ← hs2,
      hmas, Option.bind_eq_bind, Option.some_bind, Option.pure_def, Option.some_inj]
    rw [Real.sin_arcsin hs2lo hs2hi]
    rw [hla, hφ2, hlo, hA, hdLam, hX, hY]
  have hdest : destination_point realLib lat1 lon1 brng dist = .ok (.pair la lo) := by
    unfold destination_point
    rw [if_neg (not_badLat1 h1 h2), if_neg (not_badLon1 h5 h6), hcore]
    rfl
  have hφ2lo : -(Real.pi/2) ≤ φ2 := by
    rw [hφ2]
    exact Real.neg_pi_div_two_le_arcsin s2
  have hφ2hi : φ2 ≤ Real.pi/2 := by
    rw [hφ2]
    exact Real.arcsin_le_pi_div_two s2
  have hla_lo : -90 ≤ la := by
    rw [hlae, le_div_iff hpi]
    linarith only [hφ2lo]
  have hla_hi : la ≤ 90 := by
    rw [hlae, div_le_iff hpi]
    linarith only [hφ2hi]
  have hlob := lon_norm_bounds realLib realLib_sane A
  have hlo_lo : -180 ≤ lo := by
    rw [hlo]
    exact hlob.1
  have hlo_hi : lo < 180 := by
    rw [hlo]
    exact hlob.2
  have hrla : radians realLib la = φ2 := by
    show la * realLib.pi / 180 = φ2
    rw [ep, hlae]
    field_simp
  have hrlat1 : radians realLib lat1 = φ1 := hφ1.symm
  have hLat : radians realLib (la - lat1) = φ2 - φ1 := by
    show (la - lat1) * realLib.pi / 180 = φ2 - φ1
    rw [ep, hlae, hφ1e]
    field_simp
    ring
  obtain ⟨m, hm⟩ : ∃ m : ℤ, radians realLib (lo - lon1) = dLam + 2 * Real.pi * m := by
    refine ⟨1 - Int.floor (A / (2 * Real.pi)), ?_⟩
    show (lo - lon1) * realLib.pi / 180 = _
    rw [ep, hloe, hA, hlam1e]
    unfold fmod
    push_cast
    field_simp
    ring
  have hsm : Real.sin ((dLam + 2 * Real.pi * m) / 2) * Real.sin ((dLam + 2 * Real.pi * m) / 2) =
      Real.sin (dLam / 2) * Real.sin (dLam / 2) := by
    have h1' : (dLam + 2 * Real.pi * m) / 2 = dLam / 2 + (m : ℝ) * Real.pi := by ring
    have h2' : Real.sin ((m : ℝ) * Real.pi) = 0 := Real.sin_int_mul_pi m
    have h3' : Real.cos ((m : ℝ) * Real.pi) ^ 2 = 1 := by
      have hP := Real.sin_sq_add_cos_sq ((m : ℝ) * Real.pi)
      rw [h2'] at hP
      linarith only [hP]
    rw [h1', Real.sin_add, h2', mul_zero, add_zero]
    linear_combination (Real.sin (dLam / 2) * Real.sin (dLam / 2)) * h3'
  have hhalf1 : Real.sin ((φ2 - φ1) / 2) * Real.sin ((φ2 - φ1) / 2) =
      (1 - Real.cos (φ2 - φ1)) / 2 := by
    have hP := Real.sin_sq_eq_half_sub ((φ2 - φ1) / 2)
    rw [show 2 * ((φ2 - φ1) / 2) = φ2 - φ1 by ring] at hP
    linear_combination hP
  have hhalf2 : Real.sin (dLam / 2) * Real.sin (dLam / 2) = (1 - Real.cos dLam) / 2 := by
    have hP := Real.sin_sq_eq_half_sub (dLam / 2)
    rw [show 2 * (dLam / 2) = dLam by ring] at hP
    linear_combination hP
  have hcsub : Real.cos (φ2 - φ1) = Real.cos φ2 * Real.cos φ1 + s2 * Real.sin φ1 := by
    rw [Real.cos_sub, hsinφ2]
  have ha : Real.sin ((φ2 - φ1) / 2) * Real.sin ((φ2 - φ1) / 2) +
      Real.cos φ1 * Real.cos φ2 *
      Real.sin ((dLam + 2 * Real.pi * m) / 2) * Real.sin ((dLam + 2 * Real.pi * m) / 2) =
      (1 - Real.cos δ) / 2 := by
    linear_combination hhalf1 + Real.cos φ1 * Real.cos φ2 * hsm +
      Real.cos φ1 * Real.cos φ2 * hhalf2 - (1/2) * hcsub - (1/2) * hΔcos - (1/2) * hX
  have hsδnn : 0 ≤ Real.sin (δ / 2) :=
    Real.sin_nonneg_of_nonneg_of_le_pi (by linarith only [hδ0])
      (by linarith only [hδπ, hpi])
  have hcδnn : 0 ≤ Real.cos (δ / 2) :=
    Real.cos_nonneg_of_mem_Icc ⟨by linarith only [hδ0, hpi], by linarith only [hδπ]⟩
  have hhalfδ : (1 - Real.cos δ) / 2 = Real.sin (δ / 2) ^ 2 := by
    have hP := Real.sin_sq_eq_half_sub (δ / 2)
    rw [show 2 * (δ / 2) = δ by ring] at hP
    linarith only [hP]
  have h1mδ : 1 - (1 - Real.cos δ) / 2 = Real.cos (δ / 2) ^ 2 := by
    have hP := Real.sin_sq_add_cos_sq (δ / 2)
    linarith only [hP, hhalfδ]
  have hsq1 : Real.sqrt ((1 - Real.cos δ) / 2) = Real.sin (δ / 2) := by
    rw [hhalfδ, Real.sqrt_sq hsδnn]
  have hsq2 : Real.sqrt (1 - (1 - Real.cos δ) / 2) = Real.cos (δ / 2) := by
    rw [h1mδ, Real.sqrt_sq hcδnn]
  have hargδ : realLib.atan2 (Real.sin (δ / 2)) (Real.cos (δ / 2)) = δ / 2 := by
    show Complex.arg ((Real.cos (δ / 2) : ℂ) + (Real.sin (δ / 2) : ℝ) * Complex.I) = δ / 2
    rw [Complex.ofReal_cos, Complex.ofReal_sin]
    exact Complex.arg_cos_add_sin_mul_I
      ⟨by linarith only [hδ0, hpi], by linarith only [hδπ, hpi]⟩
  have hann : ¬ ((1 - Real.cos δ) / 2 < 0) := by
    push_neg
    rw [hhalfδ]
    positivity
  have hbnn : ¬ (1 - (1 - Real.cos δ) / 2 < 0) := by
    push_neg
    rw [h1mδ]
    positivity
  have hcore2 : distance_haversine_core realLib lat1 lon1 la lo = some (.num dist) := by
    simp only [distance_haversine_core, es, ec, ep, esq, hLat, hrla, hrlat1, hm]
    rw [ha]
    unfold msqrt
    rw [if_neg hann, if_neg hbnn]
    simp only [Option.bind_eq_bind, Option.some_bind, Option.pure_def,
      Option.some_inj, esq]
    rw [hsq1, hsq2, hargδ,
      show (6371 : ℝ) * (2 * (δ / 2)) = 6371 * δ from by ring, hδ,
      show (6371 : ℝ) * (dist / 6371) = dist from by ring]
  refine ⟨la, lo, hdest, ?_⟩
  unfold distance_haversine
  rw [if_neg (not_badLat2 h1 h2 hla_lo hla_hi),
    if_neg (not_badLon2 h5 h6 hlo_lo (le_of_lt hlo_hi)), hcore2]
  rfl


/-- C5 witness: the round trip evaluated at the concrete input
`p = (0, 0)`, bearing 0, distance 0. -/
theorem c5_witness :
    ((-90 : ℝ) ≤ 0 ∧ (0 : ℝ) ≤ 90 ∧ (-180 : ℝ) ≤ 0 ∧ (0 : ℝ) ≤ 180 ∧
      (0 : ℝ) ≤ 0 ∧ (0 : ℝ) ≤ Real.pi * 6371) ∧
    (∃ la lo, destination_point realLib 0 0 0 0 = .ok (.pair la lo) ∧
      distance_haversine realLib 0 0 la lo = .ok (.num 0)) :=
  ⟨⟨by norm_num, by norm_num, by norm_num, by norm_num, le_refl 0, by positivity⟩,
    c5_destination_haversine_roundtrip 0 0 0 0 (by norm_num) (by norm_num)
      (by norm_num) (by norm_num) (le_refl 0) (by positivity)⟩

end GeoSpec
